import Mathlib

/-!
Verification of the decthings-model subprocess runtime
(`src/decthings_model/run/run.py`).

The Python module is shallowly embedded: Python `bytes` become `List Nat`
(each entry a byte value), Python `str` becomes `String` (or `List Char`
where character counting matters), Python dicts keyed by strings become
association lists, and the module-level mutable registries
(`instantiatedModels`, `trainingSessions`) become fields of an explicit
`RunState` record threaded through the call handlers.  Asynchronous user
collaborator code is passed in as an explicit outcome function, and every
message sent to the host is collected in the return value instead of being
written to the socket.
-/

/-- Python dict deletion `del m[k]` on a string-keyed dict, modelled on an
association list: removes the binding for `k`. -/
def dictDel {α : Type} (m : List (String × α)) (k : String) : List (String × α) :=
  m.filter fun p => p.1 != k

/-- Python dict assignment `m[k] = v`: afterwards looking up `k` yields `v`
and every other key is unchanged.  (Only lookups on these dicts are ever
observed by the runtime, so the iteration order is irrelevant.) -/
def dictSet {α : Type} (m : List (String × α)) (k : String) (v : α) : List (String × α) :=
  (k, v) :: dictDel m k

/-- A Python runtime value, as far as the argument validation in `run.py`
inspects values: the checks used are `type(x) == int`, `type(x) == float`,
`isinstance(x, str)`, `isinstance(x, bytes)`, `isinstance(x, list)`,
`isinstance(x, dict)` and dict key lookup. -/
inductive PyVal where
  | int (n : Int)
  | float (q : Int)
  | str (s : String)
  | bytes (b : List Nat)
  | pyNone
  | list (xs : List PyVal)
  | dict (entries : List (String × PyVal))

/-- One event frame handed to `sendEventToParent(event, params, additionalSegments)`
by the training tracker. -/
inductive SentEvent where
  | trainingProgress (trainingSessionId : String) (progressValue : PyVal)
  | trainingMetrics (trainingSessionId : String) (names : List String) (values : List (List Nat))

/-- The `TrainTracker` object of `run.py` (lines 16–23).  `_on_cancel` holds
opaque callbacks, modelled as identifiers; `_complete` is the completion
flag.  The `cancelled` attribute is set dynamically by `callCancelTrain`
(line 198); it is absent until then, which we model as defaulting to
`false`. -/
structure TrainTracker where
  id : String
  onCancel : List Nat
  complete : Bool
  cancelled : Bool
deriving DecidableEq

/-- `TrainTracker.on_cancel(cb)` (line 22–23): appends the callback to the
registration list, so the list order is the registration order. -/
def TrainTracker.registerOnCancel (t : TrainTracker) (cb : Nat) : TrainTracker :=
  { t with onCancel := t.onCancel ++ [cb] }

/-- `TrainTracker.progress(progress)` (lines 25–30).  Raising an exception is
modelled as `Except.error` carrying the message; a normal return carries the
list of events sent to the host, so an error value sends nothing. -/
def TrainTracker.progress (t : TrainTracker) (p : PyVal) : Except String (List SentEvent) :=
  if t.complete then
    .error "TrainTracker progress: Cannot report progress after the training session was completed."
  else
    match p with
    | .int _ => .ok [.trainingProgress t.id p]
    | .float _ => .ok [.trainingProgress t.id p]
    | _ => .error "TrainTracker progress: Invalid argument passed to progress()."

/-- The per-element validation of `TrainTracker.metrics` (lines 41–49): each
element must be a dict with a string `name` and a bytes `value`; on success
the `(name, value)` pair is appended to `nameslist`/`byteslist`. -/
def checkMetric (m : PyVal) : Except String (String × List Nat) :=
  match m with
  | .dict entries =>
    match entries.lookup "name" with
    | some (.str name) =>
      (match entries.lookup "value" with
       | some (.bytes v) => .ok (name, v)
       | _ => .error "TrainTracker metrics: Invalid argument passed to metrics(). Expected each element of list to contain a field value that is bytes.")
    | _ => .error "TrainTracker metrics: Invalid argument passed to metrics(). Expected each element of list to contain a field name that is a string."
  | _ => .error "TrainTracker metrics: Invalid argument passed to metrics(). Expected each element of list to be a dict."

/-- The `for metric in metrics` loop of `TrainTracker.metrics` (lines 41–49):
elements are validated in order and the first failure aborts the whole call
(the Python loop raises), so no event is sent in that case. -/
def collectMetrics : List PyVal → Except String (List (String × List Nat))
  | [] => .ok []
  | m :: rest =>
    match checkMetric m with
    | .error e => .error e
    | .ok p =>
      match collectMetrics rest with
      | .error e => .error e
      | .ok ps => .ok (p :: ps)

/-- `TrainTracker.metrics(metrics)` (lines 32–50): rejects after completion,
requires a list, returns silently on an empty list, validates every element
in order and then sends a single `trainingMetrics` event. -/
def TrainTracker.metrics (t : TrainTracker) (ms : PyVal) : Except String (List SentEvent) :=
  if t.complete then
    .error "TrainTracker metrics: Cannot report metrics after the training session was completed."
  else
    match ms with
    | .list xs =>
      if xs.isEmpty then .ok []
      else
        match collectMetrics xs with
        | .error e => .error e
        | .ok pairs => .ok [.trainingMetrics t.id (pairs.map Prod.fst) (pairs.map Prod.snd)]
    | _ => .error "TrainTracker metrics: Invalid argument passed to metrics(). Parameter must be a list."

/-- Spec-side well-formedness of the argument to `progress`: an int or a
float (`type(progress) == int or type(progress) == float`). -/
def wellFormedProgressArg (p : PyVal) : Bool :=
  match p with
  | .int _ => true
  | .float _ => true
  | _ => false

/-- Spec-side well-formedness of one metrics element: a dict with a string
field `name` and a bytes field `value`. -/
def metricElemWf (m : PyVal) : Bool :=
  match m with
  | .dict entries =>
    match entries.lookup "name" with
    | some (.str _) =>
      (match entries.lookup "value" with
       | some (.bytes _) => true
       | _ => false)
    | _ => false
  | _ => false

/-- Spec-side well-formedness of the argument to `metrics`: a list all of
whose elements are well-formed metric dicts. -/
def wellFormedMetricsArg (ms : PyVal) : Bool :=
  match ms with
  | .list xs => xs.all metricElemWf
  | _ => false

/-- `true` iff the call returned normally (did not raise). -/
def exceptIsOk {ε α : Type} : Except ε α → Bool
  | .ok _ => true
  | .error _ => false

theorem checkMetric_isOk (m : PyVal) : exceptIsOk (checkMetric m) = metricElemWf m := by
  unfold checkMetric metricElemWf
  cases m <;> simp [exceptIsOk]
  next entries =>
    rcases h : entries.lookup "name" with _ | v
    · simp [exceptIsOk]
    · cases v <;> simp [exceptIsOk]
      next =>
        rcases h2 : entries.lookup "value" with _ | w
        · simp [exceptIsOk]
        · cases w <;> simp [exceptIsOk]

theorem collectMetrics_isOk (xs : List PyVal) :
    exceptIsOk (collectMetrics xs) = xs.all metricElemWf := by
  induction xs with
  | nil => rfl
  | cons x xs ih =>
    rw [List.all_cons, ← checkMetric_isOk x, ← ih]
    rcases h : checkMetric x with e | v <;>
      rcases h2 : collectMetrics xs with e2 | v2 <;>
        simp [collectMetrics, h, h2, exceptIsOk]

/-- C6: a training tracker whose completed flag is set rejects both
`progress` and `metrics` by raising (so no event is sent, since events are
only produced on a normal return); with the flag clear, `progress` returns
normally exactly when its argument is an int or a float, and `metrics`
returns normally exactly when its argument is a list of well-formed metric
dicts. -/
theorem trainTracker_reporting_gated_by_completion (t : TrainTracker) (p ms : PyVal) :
    exceptIsOk (t.progress p) = (!t.complete && wellFormedProgressArg p) ∧
    exceptIsOk (t.metrics ms) = (!t.complete && wellFormedMetricsArg ms) := by
  constructor
  · rcases hc : t.complete
    · cases p <;> simp [TrainTracker.progress, hc, exceptIsOk, wellFormedProgressArg]
    · simp [TrainTracker.progress, hc, exceptIsOk]
  · rcases hc : t.complete
    · cases ms <;>
        simp [TrainTracker.metrics, hc, exceptIsOk, wellFormedMetricsArg]
      next xs =>
        rcases hxs : xs.isEmpty
        · rcases h2 : collectMetrics xs with e | v <;>
            · have := collectMetrics_isOk xs
              rw [h2] at this
              simp [hxs, h2, exceptIsOk, ← this]
        · have : xs = [] := List.isEmpty_iff.mp hxs
          subst this
          simp [hxs, exceptIsOk, List.all_nil]
    · simp [TrainTracker.metrics, hc, exceptIsOk]

/-- C10: calling `metrics` with an empty list on an uncompleted tracker
returns normally (lines 37–38: `if len(metrics) == 0: return`) and sends no
event to the host. -/
theorem trainTracker_metrics_empty_list (t : TrainTracker) (h : t.complete = false) :
    t.metrics (.list []) = .ok [] := by
  simp [TrainTracker.metrics, h]

def c10Tracker : TrainTracker :=
  { id := "ts", onCancel := [], complete := false, cancelled := false }

/-- Witness for C10 at a concrete tracker. -/
theorem trainTracker_metrics_empty_list_witness :
    c10Tracker.complete = false ∧ c10Tracker.metrics (.list []) = .ok [] :=
  ⟨rfl, trainTracker_metrics_empty_list c10Tracker rfl⟩

/-- The fixed-form truncation suffix of `getErrorFromException` (line 55):
`" (exception shortened - actual exception contained {omitted} more characters)"`. -/
def shortenedSuffix (omitted : Nat) : List Char :=
  " (exception shortened - actual exception contained ".data
    ++ (toString omitted).data ++ " more characters)".data

/-- The structured error dict `{ "code": ..., "details": ... }` returned by
`getErrorFromException`.  The details string is modelled as a character list
because the truncation slices by character count. -/
structure StructuredError where
  code : String
  details : List Char
deriving DecidableEq

/-- `getErrorFromException()` (lines 52–56), parametrised by the formatted
traceback `traceback.format_exc()` as a character sequence: tracebacks
longer than 10000 characters are cut to their first 10000 characters plus
the fixed-form suffix, and the error kind is always `"exception"`. -/
def getErrorFromException (errStr : List Char) : StructuredError :=
  if errStr.length > 10000 then
    { code := "exception",
      details := errStr.take 10000 ++ shortenedSuffix (errStr.length - 10000) }
  else
    { code := "exception", details := errStr }

/-- C9: every structured error built from an uncaught user exception has kind
`"exception"`; its description keeps at most the first 10000 characters of
the traceback (the first 10000 characters of the description always agree
with those of the traceback), is the whole traceback when that is short
enough, and otherwise is exactly the 10000-character cut followed by the
fixed-form suffix naming the number of omitted characters. -/
theorem getErrorFromException_truncation (s : List Char) :
    (getErrorFromException s).code = "exception" ∧
    (getErrorFromException s).details =
      (if 10000 < s.length then s.take 10000 ++ shortenedSuffix (s.length - 10000) else s) ∧
    (getErrorFromException s).details.take 10000 = s.take 10000 := by
  unfold getErrorFromException
  rcases Nat.lt_or_ge 10000 s.length with h | h
  · rw [if_pos h, if_pos h]
    refine ⟨rfl, rfl, ?_⟩
    have hl : (s.take 10000).length = 10000 := by
      rw [List.length_take]; omega
    rw [List.take_append_of_le_length (le_of_eq hl.symm), List.take_take,
      Nat.min_self]
  · rw [if_neg (Nat.not_lt.mpr h), if_neg (Nat.not_lt.mpr h)]
    exact ⟨rfl, rfl, rfl⟩

/-- The `"model"` entry of a stored instantiated-model handle
(`callInstantiateModel`, lines 99–150): either the pending future that will
resolve to `None` (instantiation failed, or dispose was requested first),
a pending future that will resolve to a model instance, or the already
resolved model instance.  Model instances are opaque identifiers. -/
inductive ModelSlot where
  | futureNone
  | futureModel (m : Nat)
  | ready (m : Nat)
deriving DecidableEq

/-- One value of the module-level `instantiatedModels` dict: the
`{"model": ..., "dispose": ...}` record stored by `callInstantiateModel`
(lines 110–115).  The dispose capability is an opaque identifier. -/
structure InstantiatedModelEntry where
  model : ModelSlot
  dispose : Nat
deriving DecidableEq

/-- The module-level mutable registries of `run.py` (lines 13–14):
`instantiatedModels` and `trainingSessions`, threaded explicitly. -/
structure RunState where
  instantiatedModels : List (String × InstantiatedModelEntry)
  trainingSessions : List (String × TrainTracker)
deriving DecidableEq

/-- `callDisposeInstantiatedModel(args)` (lines 152–156).  The handler looks
the handle up, deletes it from `instantiatedModels`, and then its final
statement `instantiatedModel["dispose"]` is a bare subscript expression —
the stored dispose capability is read and discarded, never called.  The
second component of the result lists the dispose capabilities actually
invoked during the call; faithfully to the source it is always empty. -/
def callDisposeInstantiatedModel (st : RunState) (instantiatedModelId : String) :
    RunState × List Nat :=
  match st.instantiatedModels.lookup instantiatedModelId with
  | some _ =>
      ({ st with instantiatedModels := dictDel st.instantiatedModels instantiatedModelId }, [])
  | none => (st, [])

def c1State : RunState :=
  { instantiatedModels := [("m1", { model := ModelSlot.ready 42, dispose := 7 })],
    trainingSessions := [] }

/-- C1: evaluating the dispose control call on a state holding one ready
handle `"m1"` with stored dispose capability `7`.  The handle is indeed
absent from the map immediately afterwards, but the invoked-capability list
is empty: line 156 (`instantiatedModel["dispose"]`) never calls the stored
dispose capability, contradicting the claim (and, because the deferred-
dispose path of `callInstantiateModel` is triggered by that same stored
closure, the dispose-before-instantiation-resolves case never invokes the
model's dispose capability either). -/
theorem disposeCall_removes_handle_but_invokes_nothing :
    callDisposeInstantiatedModel c1State "m1"
      = ({ instantiatedModels := [], trainingSessions := [] }, []) := by
  decide

/-- `callCancelTrain(args)` (lines 195–200): if the training session id is
known, set the tracker's `cancelled` attribute and invoke every callback in
`tracker._on_cancel` in order, within the call itself.  The second
component is the sequence of callbacks invoked, in invocation order. -/
def callCancelTrain (st : RunState) (trainingSessionId : String) : RunState × List Nat :=
  match st.trainingSessions.lookup trainingSessionId with
  | none => (st, [])
  | some t =>
    ({ st with
        trainingSessions :=
          dictSet st.trainingSessions trainingSessionId { t with cancelled := true } },
      t.onCancel)

/-- C5: a cancellation call for an active training session invokes exactly
the callbacks registered via `on_cancel`, each once, in registration order
(the invocation sequence equals the registration list, which
`TrainTracker.registerOnCancel` builds by appending); the session's
`cancelled` flag is set; and nothing else changes — the tracker keeps its
id, callback list and completion flag, the session stays in the map, and
the instantiated-model registry is untouched. -/
theorem cancelTrain_fires_callbacks_in_order (st : RunState) (tsId : String)
    (t : TrainTracker) (h : st.trainingSessions.lookup tsId = some t) :
    (callCancelTrain st tsId).2 = t.onCancel ∧
    (callCancelTrain st tsId).1.trainingSessions.lookup tsId
      = some { t with cancelled := true } ∧
    (callCancelTrain st tsId).1.instantiatedModels = st.instantiatedModels := by
  unfold callCancelTrain
  rw [h]
  refine ⟨rfl, ?_, rfl⟩
  simp [dictSet, List.lookup]

def c5Tracker : TrainTracker :=
  { id := "ts1", onCancel := [30, 10, 20], complete := false, cancelled := false }

def c5State : RunState :=
  { instantiatedModels := [], trainingSessions := [("ts1", c5Tracker)] }

/-- Witness for C5 at a concrete state with three registered callbacks. -/
theorem cancelTrain_fires_callbacks_in_order_witness :
    c5State.trainingSessions.lookup "ts1" = some c5Tracker ∧
    ((callCancelTrain c5State "ts1").2 = c5Tracker.onCancel ∧
     (callCancelTrain c5State "ts1").1.trainingSessions.lookup "ts1"
       = some { c5Tracker with cancelled := true } ∧
     (callCancelTrain c5State "ts1").1.instantiatedModels = c5State.instantiatedModels) :=
  ⟨rfl, cancelTrain_fires_callbacks_in_order c5State "ts1" c5Tracker rfl⟩

/-- Outcome of running a user collaborator operation: a normal return or an
uncaught exception with its formatted traceback. -/
inductive UserCallOutcome where
  | ok
  | raisesWith (tb : List Char)
deriving DecidableEq

/-- The tracker created at the start of `callTrain` (line 159):
`TrainTracker(args["trainingSessionId"])`. -/
def freshTracker (trainingSessionId : String) : TrainTracker :=
  { id := trainingSessionId, onCancel := [], complete := false, cancelled := false }

/-- A control call's `{"result": ...}` value: the bare string error used for
unknown handles, a structured error from `getErrorFromException`, the empty
success dict, or evaluate's outputs together with the joined `alsoSend`
bytes. -/
inductive CallResult where
  | errorString (s : String)
  | errorStructured (e : StructuredError)
  | okEmpty
  | okOutputs (outputs : List (String × List Nat)) (alsoSend : List Nat)
deriving DecidableEq

/-- The tail of `callTrain` once a model instance is at hand (lines
173–193): the user `train` operation runs (its interaction with the data
loaders and the tracker is abstracted into its outcome), the tracker is
marked complete, and on success and on exception alike the session is
deleted from `trainingSessions` before returning. -/
def callTrainWithModel (st1 : RunState) (trainingSessionId : String) (m : Nat)
    (userTrain : Nat → UserCallOutcome) : RunState × CallResult :=
  match userTrain m with
  | .ok =>
    ({ st1 with trainingSessions := dictDel st1.trainingSessions trainingSessionId },
      .okEmpty)
  | .raisesWith tb =>
    ({ st1 with trainingSessions := dictDel st1.trainingSessions trainingSessionId },
      .errorStructured (getErrorFromException tb))

/-- `callTrain(args)` (lines 158–193): a fresh tracker is registered in
`trainingSessions` first (lines 159–160); then the instantiated-model
lookup happens — and the two `instantiated_model_not_found` early returns
(lines 162–163 and 166–169) return without deleting the session just
registered, while the success and exception paths delete it (lines 189 and
192). -/
def callTrain (st : RunState) (trainingSessionId instantiatedModelId : String)
    (userTrain : Nat → UserCallOutcome) : RunState × CallResult :=
  let st1 : RunState :=
    { st with
        trainingSessions :=
          dictSet st.trainingSessions trainingSessionId (freshTracker trainingSessionId) }
  match st1.instantiatedModels.lookup instantiatedModelId with
  | none => (st1, .errorString "instantiated_model_not_found")
  | some entry =>
    match entry.model with
    | .futureNone => (st1, .errorString "instantiated_model_not_found")
    | .futureModel m => callTrainWithModel st1 trainingSessionId m userTrain
    | .ready m => callTrainWithModel st1 trainingSessionId m userTrain

def c4AlwaysOk : Nat → UserCallOutcome := fun _ => .ok

def c4State : RunState := { instantiatedModels := [], trainingSessions := [] }

/-- C4: evaluating `callTrain` at a state with no instantiated models shows
the `instantiated_model_not_found` early return of line 163 leaving the
just-created training session `"ts1"` in `trainingSessions` after the call
has returned — the session is not removed on this failure path,
contradicting the claim that it is removed on success and failure alike. -/
theorem trainCall_not_found_leaks_training_session :
    callTrain c4State "ts1" "m1" c4AlwaysOk
      = ({ instantiatedModels := [],
           trainingSessions := [("ts1", freshTracker "ts1")] },
         CallResult.errorString "instantiated_model_not_found") := by
  decide

/-- The per-data-list check of `callEvaluate` (lines 239–241): every element
of the `data` field must be bytes; collects the byte strings. -/
def allBytes : List PyVal → Option (List (List Nat))
  | [] => some []
  | .bytes b :: rest => (allBytes rest).map (fun bs => b :: bs)
  | _ => none

/-- The per-element validation of `callEvaluate`'s output loop (lines
232–243): each element must be a dict with a string `name` and a list
`data` of bytes objects; produces the `{"name", "byteSizes"}` output entry
together with the data segments appended to `alsoSend`. -/
def validateEvaluateElem (el : PyVal) :
    Except String ((String × List Nat) × List (List Nat)) :=
  match el with
  | .dict entries =>
    match entries.lookup "name" with
    | some (.str name) =>
      (match entries.lookup "data" with
       | some (.list ds) =>
         (match allBytes ds with
          | some bs => .ok ((name, bs.map List.length), bs)
          | none => .error "Evaluate: Expected each element in the return list of evaluate to contain a field data that is a list where each element is a bytes object. Got something other than bytes.")
       | _ => .error "Evaluate: Expected each element in the return list of evaluate to contain a field data that is a list.")
    | _ => .error "Evaluate: Expected each element in the return list of evaluate to contain a field name that is a string."
  | _ => .error "Evaluate: Expected each element in the return list of evaluate to be a dict."

/-- The `for el in awaitedres` loop of `callEvaluate` (lines 232–243): the
first validation failure raises and is caught by the surrounding `except`. -/
def collectEvaluateOutputs :
    List PyVal → Except String (List ((String × List Nat) × List (List Nat)))
  | [] => .ok []
  | el :: rest =>
    match validateEvaluateElem el with
    | .error e => .error e
    | .ok r =>
      match collectEvaluateOutputs rest with
      | .error e => .error e
      | .ok rs => .ok (r :: rs)

/-- Outcome of the user collaborator's `evaluate` operation: a returned
Python value (validated afterwards by the runtime) or an uncaught exception
with its formatted traceback. -/
inductive EvalUserOutcome where
  | returns (v : PyVal)
  | raisesWith (tb : List Char)

/-- The body of `callEvaluate` once a model instance is at hand (lines
214–248): run the user `evaluate`, catch any exception as a structured
error, otherwise validate the returned list and build the outputs plus the
single joined `alsoSend` byte string (`b''.join(alsoSend)`, line 248).
For validation failures raised by the runtime itself the formatted
traceback is approximated by the raised message text. -/
def evalResultOf (m : Nat) (user : Nat → EvalUserOutcome) : CallResult :=
  match user m with
  | .raisesWith tb => .errorStructured (getErrorFromException tb)
  | .returns v =>
    match v with
    | .list els =>
      (match collectEvaluateOutputs els with
       | .error msg => .errorStructured (getErrorFromException msg.data)
       | .ok rs => .okOutputs (rs.map Prod.fst) ((rs.map Prod.snd).flatten.flatten))
    | _ =>
      .errorStructured
        (getErrorFromException "Evaluate: Expected return value of evaluate to be a list.".data)

/-- `callEvaluate(args)` (lines 202–248).  The result is paired with two
booleans recording whether `createDataLoaderMap` ran (line 213) and whether
the user collaborator was invoked (lines 215–218): both guards — unknown
id (lines 203–204) and a handle whose awaited future resolved to `None`
(lines 206–209) — return the bare `instantiated_model_not_found` error
before either happens. -/
def callEvaluate (st : RunState) (instantiatedModelId : String)
    (user : Nat → EvalUserOutcome) : CallResult × Bool × Bool :=
  match st.instantiatedModels.lookup instantiatedModelId with
  | none => (.errorString "instantiated_model_not_found", false, false)
  | some entry =>
    match entry.model with
    | .futureNone => (.errorString "instantiated_model_not_found", false, false)
    | .futureModel m => (evalResultOf m user, true, true)
    | .ready m => (evalResultOf m user, true, true)

/-- C7: an `evaluate` control call whose instantiated-model id is unknown,
or whose handle's future resolved to `None` (disposed / never became
ready), returns the structured `instantiated_model_not_found` error with no
data loaders created and no user collaborator code invoked. -/
theorem evaluate_unknown_id_invokes_nothing (st : RunState) (id : String)
    (user : Nat → EvalUserOutcome)
    (h : st.instantiatedModels.lookup id = none ∨
      ∃ e, st.instantiatedModels.lookup id = some e ∧ e.model = ModelSlot.futureNone) :
    callEvaluate st id user
      = (CallResult.errorString "instantiated_model_not_found", false, false) := by
  rcases h with h | ⟨e, he, hm⟩
  · simp [callEvaluate, h]
  · simp [callEvaluate, he, hm]

def c7State : RunState := { instantiatedModels := [], trainingSessions := [] }

def c7User : Nat → EvalUserOutcome := fun _ => .returns (.list [])

/-- Witness for C7 at a state with no instantiated models. -/
theorem evaluate_unknown_id_invokes_nothing_witness :
    c7State.instantiatedModels.lookup "m1" = none ∧
    callEvaluate c7State "m1" c7User
      = (CallResult.errorString "instantiated_model_not_found", false, false) :=
  ⟨rfl, evaluate_unknown_id_invokes_nothing c7State "m1" c7User (Or.inl rfl)⟩

/-- Names of the handler functions defined in `run.py` that could be
registered in the `rpc` method table (lines 280–288): one per control
method, including `callCancelTrain`, which is defined at lines 195–200. -/
inductive HandlerName where
  | initializeHandler
  | callCreateModelState
  | callInstantiateModel
  | callDisposeInstantiatedModel
  | callTrain
  | callCancelTrain
  | callEvaluate
  | callGetModelState
deriving DecidableEq

/-- The `rpc` method table literal of `run.py` (lines 280–288), exactly the
seven entries written in the source. -/
def rpc : List (String × HandlerName) :=
  [("initialize", .initializeHandler),
   ("callCreateModelState", .callCreateModelState),
   ("callInstantiateModel", .callInstantiateModel),
   ("callDisposeInstantiatedModel", .callDisposeInstantiatedModel),
   ("callTrain", .callTrain),
   ("callEvaluate", .callEvaluate),
   ("callGetModelState", .callGetModelState)]

/-- C3: the method table does route seven of the eight control methods to
their handlers, but it has no entry at all — under either naming
convention — for the cancel-train handler: `callCancelTrain` is defined in
the module yet absent from the table, so a control frame naming it is not
routed to any handler (the dispatcher's `rpc[parsed["method"]]` lookup
raises `KeyError` instead). -/
theorem rpc_table_lacks_cancel_handler :
    rpc.lookup "initialize" = some HandlerName.initializeHandler ∧
    rpc.lookup "callCreateModelState" = some HandlerName.callCreateModelState ∧
    rpc.lookup "callInstantiateModel" = some HandlerName.callInstantiateModel ∧
    rpc.lookup "callDisposeInstantiatedModel" = some HandlerName.callDisposeInstantiatedModel ∧
    rpc.lookup "callTrain" = some HandlerName.callTrain ∧
    rpc.lookup "callEvaluate" = some HandlerName.callEvaluate ∧
    rpc.lookup "callGetModelState" = some HandlerName.callGetModelState ∧
    rpc.lookup "callCancelTrain" = none ∧
    rpc.lookup "cancelTrain" = none ∧
    HandlerName.callCancelTrain ∉ rpc.map Prod.snd := by
  decide

/-- The information `processMessage` (lines 328–341) extracts from an
incoming control-frame segment: either `json.loads` raised (malformed
JSON), or it produced a message with a method name and an optional
correlation id (`parsed["params"]["id"]`).  The remaining call parameters
are abstracted away; the behaviour of a successfully dispatched handler is
supplied as an explicit result function. -/
inductive ParsedMessage where
  | malformed
  | parsedMsg (method : String) (correlationId : Option Nat)
deriving DecidableEq

/-- How one `processMessage` task ends: with a reply frame sent back to the
host (carrying the correlation id and the handler's result), with a normal
return and no reply (one-way call), or with an uncaught exception killing
the task — in which case no frame of any kind is sent. -/
inductive TaskOutcome where
  | replied (id : Nat) (result : CallResult)
  | noReply
  | crashed
deriving DecidableEq

/-- `processMessage(buf)` (lines 328–341), threaded with the pending-request
correlation table (which lives in the data-loader module and which
`processMessage` never touches).  `json.loads` failure and the
`rpc[parsed["method"]]` `KeyError` are uncaught — there is no
`try`/`except` in the function — so the spawned task dies without sending
anything.  Otherwise the handler runs and a `{id, result}` reply is sent
exactly when a correlation id is present. -/
def processMessage (pendingRequests : List (Nat × Nat)) (p : ParsedMessage)
    (run : HandlerName → CallResult) : List (Nat × Nat) × TaskOutcome :=
  match p with
  | .malformed => (pendingRequests, .crashed)
  | .parsedMsg method cid =>
    match rpc.lookup method with
    | none => (pendingRequests, .crashed)
    | some h =>
      match cid with
      | none => (pendingRequests, .noReply)
      | some i => (pendingRequests, .replied i (run h))

def dispatchDefaultRun : HandlerName → CallResult := fun _ => CallResult.okEmpty

/-- C8 counterexample: a control frame naming the unknown method `"trainX"`
with correlation id `7` present does not terminate with an error-result
reply — the task crashes with the uncaught `KeyError` and no reply of any
kind is produced (the outcome is `crashed`, not `replied`), though the
pending-request state is left untouched. -/
theorem unknown_method_sends_no_error_reply :
    processMessage [(1, 2)] (ParsedMessage.parsedMsg "trainX" (some 7)) dispatchDefaultRun
      = ([(1, 2)], TaskOutcome.crashed) := by
  decide

/-- `true` when decoding-side processing of the frame fails before any
handler can run: malformed JSON, or a method absent from the `rpc` table. -/
def parseFails (p : ParsedMessage) : Bool :=
  match p with
  | .malformed => true
  | .parsedMsg method _ => (rpc.lookup method).isNone

/-- C8 (amended): a control frame with malformed JSON or an unknown method
terminates the affected call with an uncaught exception in its own task —
no reply, error or otherwise, is sent, whether or not a correlation id is
present — and the pending-request correlation state is unaffected (other
concurrently processed calls run in their own tasks and are untouched). -/
theorem bad_frame_crashes_task_state_unaffected (pendingRequests : List (Nat × Nat))
    (p : ParsedMessage) (run : HandlerName → CallResult) (h : parseFails p = true) :
    processMessage pendingRequests p run = (pendingRequests, TaskOutcome.crashed) := by
  cases p with
  | malformed => rfl
  | parsedMsg method cid =>
    have hnone : rpc.lookup method = none := by
      rcases hl : rpc.lookup method with _ | v
      · rfl
      · simp [parseFails, hl] at h
    simp [processMessage, hnone]

/-- Witness for the amended C8 at a concrete unknown-method frame. -/
theorem bad_frame_crashes_task_state_unaffected_witness :
    parseFails (ParsedMessage.parsedMsg "nope" none) = true ∧
    processMessage [(4, 9)] (ParsedMessage.parsedMsg "nope" none) dispatchDefaultRun
      = ([(4, 9)], TaskOutcome.crashed) :=
  ⟨by decide,
   bad_frame_crashes_task_state_unaffected [(4, 9)] (ParsedMessage.parsedMsg "nope" none)
     dispatchDefaultRun (by decide)⟩

/-- Python's `n.to_bytes(w, 'big')`: the `w`-byte big-endian encoding. -/
def toBytesBE : Nat → Nat → List Nat
  | 0, _ => []
  | w + 1, n => toBytesBE w (n / 256) ++ [n % 256]

/-- Python's `int.from_bytes(bs, 'big')`. -/
def fromBytesBE (bs : List Nat) : Nat :=
  bs.foldl (fun acc b => acc * 256 + b) 0

theorem length_toBytesBE (w n : Nat) : (toBytesBE w n).length = w := by
  induction w generalizing n with
  | zero => rfl
  | succ w ih => simp [toBytesBE, ih]

theorem fromBytesBE_append_singleton (xs : List Nat) (b : Nat) :
    fromBytesBE (xs ++ [b]) = fromBytesBE xs * 256 + b := by
  simp [fromBytesBE, List.foldl_append]

theorem fromBytesBE_toBytesBE (w n : Nat) (h : n < 256 ^ w) :
    fromBytesBE (toBytesBE w n) = n := by
  induction w generalizing n with
  | zero =>
    simp [Nat.pow_zero] at h
    simp [toBytesBE, fromBytesBE, h]
  | succ w ih =>
    have hdiv : n / 256 < 256 ^ w := by
      rw [Nat.div_lt_iff_lt_mul (by norm_num)]
      rw [Nat.pow_succ] at h
      exact h
    rw [toBytesBE, fromBytesBE_append_singleton, ih _ hdiv]
    omega

/-- `await reader.readexactly(n)` against a finite byte sequence: the first
`n` bytes and the remainder, or `none` when the stream ends early
(`IncompleteReadError`). -/
def readExactly (n : Nat) (bs : List Nat) : Option (List Nat × List Nat) :=
  if n ≤ bs.length then some (bs.take n, bs.drop n) else none

theorem readExactly_exact (n : Nat) (xs ys : List Nat) (h : xs.length = n) :
    readExactly n (xs ++ ys) = some (xs, ys) := by
  subst h
  simp [readExactly]

/-- The `for i in range(num_segments)` loop of `inner_main` (lines 381–385):
read `n` segments, each an 8-byte big-endian length followed by that many
bytes. -/
def readSegments : Nat → List Nat → Option (List (List Nat) × List Nat)
  | 0, bs => some ([], bs)
  | n + 1, bs =>
    match readExactly 8 bs with
    | none => none
    | some (lenB, r1) =>
      match readExactly (fromBytesBE lenB) r1 with
      | none => none
      | some (seg, r2) =>
        match readSegments n r2 with
        | none => none
        | some (segs, r3) => some (seg :: segs, r3)

/-- What one iteration of the `inner_main` read loop (lines 369–386)
produces: an RPC control segment (tag byte 0: one 8-byte big-endian length
followed by the JSON payload), or a data-chunk resolution (tag ≠ 0: 4-byte
request id, 4-byte segment count, then length-prefixed segments). -/
inductive InboundFrame where
  | rpcSegment (buf : List Nat)
  | provideData (requestId : Nat) (segments : List (List Nat))
deriving DecidableEq

/-- The inbound frame decoder of `inner_main` (lines 369–386) applied to a
finite byte sequence: decodes one frame and returns it with the unread
remainder. -/
def decodeInboundFrame (bs : List Nat) : Option (InboundFrame × List Nat) :=
  match bs with
  | [] => none
  | b :: rest =>
    if b = 0 then
      match readExactly 8 rest with
      | none => none
      | some (lenB, r1) =>
        match readExactly (fromBytesBE lenB) r1 with
        | none => none
        | some (seg, r2) => some (.rpcSegment seg, r2)
    else
      match readExactly 4 rest with
      | none => none
      | some (ridB, r1) =>
        match readExactly 4 r1 with
        | none => none
        | some (cntB, r2) =>
          match readSegments (fromBytesBE cntB) r2 with
          | none => none
          | some (segs, r3) => some (.provideData (fromBytesBE ridB) segs, r3)

/-- The outbound control-frame encoder: the frame-building code shared by
`sendEventToParent` (lines 310–320) and `processMessage` (lines 348–358),
applied to the segment list `toSend`:
`[0][count-1 as 4B BE][(8B BE length, bytes) per segment][0]`. -/
def encodeControlFrame (toSend : List (List Nat)) : List Nat :=
  0 :: (toBytesBE 4 (toSend.length - 1)
    ++ (((toSend.map fun el => toBytesBE 8 el.length ++ el).flatten) ++ [0]))

/-- The control-frame segments named by the claim:
`["{}".bytes, b"abc", b""]`. -/
def c2segments : List (List Nat) := [[123, 125], [97, 98, 99], []]

/-- C2 counterexample: feeding the outbound encoding of the claim's segment
list to the code's own inbound decoder does not yield the segment list —
decoding fails outright, because the inbound control branch expects the
single-segment shape `[0][8-byte length][payload]`, so it misreads the
4-byte count plus the first length prefix as one huge 8-byte length. -/
theorem inbound_decoder_rejects_encoded_control_frame :
    decodeInboundFrame (encodeControlFrame c2segments) = none := by
  decide

/-- Modelled from the spec (§4.1), for comparison with the source encoder:
the decoder of the *outbound* control-frame format
`[0][count-1 as 4B BE][(8B BE length, bytes) per segment][0]`.  The source
repository contains no decoder for this direction (the host-side peer does
the decoding), so this definition follows the spec's words. -/
def specControlFrameDecode (bs : List Nat) : Option (List (List Nat)) :=
  match bs with
  | [] => none
  | b :: rest =>
    if b = 0 then
      match readExactly 4 rest with
      | none => none
      | some (cntB, r1) =>
        match readSegments (fromBytesBE cntB + 1) r1 with
        | none => none
        | some (segs, r2) => if r2 = [0] then some segs else none
    else none

/-- Every segment is short enough for its 8-byte big-endian length prefix. -/
def segmentLengthsOk (segs : List (List Nat)) : Prop :=
  ∀ s ∈ segs, s.length < 2 ^ 64

theorem readSegments_succ (n : Nat) (s rest : List Nat) (hs : s.length < 2 ^ 64) :
    readSegments (n + 1) (toBytesBE 8 s.length ++ (s ++ rest))
      = match readSegments n rest with
        | none => none
        | some (segs, r) => some (s :: segs, r) := by
  have h256 : (256 : Nat) ^ 8 = 2 ^ 64 := by norm_num
  have h8 : fromBytesBE (toBytesBE 8 s.length) = s.length :=
    fromBytesBE_toBytesBE 8 s.length (by rw [h256]; exact hs)
  simp only [readSegments,
    readExactly_exact 8 (toBytesBE 8 s.length) (s ++ rest) (length_toBytesBE 8 s.length),
    h8, readExactly_exact s.length s rest rfl]

theorem readSegments_encoded (segs : List (List Nat)) (tail : List Nat)
    (h : segmentLengthsOk segs) :
    readSegments segs.length
        (((segs.map fun el => toBytesBE 8 el.length ++ el).flatten) ++ tail)
      = some (segs, tail) := by
  induction segs with
  | nil => rfl
  | cons s ss ih =>
    have hs : s.length < 2 ^ 64 := h s (List.mem_cons_self s ss)
    have hss : segmentLengthsOk ss := fun x hx => h x (List.mem_cons_of_mem s hx)
    rw [List.map_cons, List.flatten_cons, List.append_assoc, List.append_assoc,
      List.length_cons, readSegments_succ ss.length s _ hs, ih hss]

/-- C2 (amended): for every nonempty segment list with at most `2^32`
segments, each segment shorter than `2^64` bytes, encoding with the
outbound control-frame encoder and decoding with a decoder of that same
outbound format (spec §4.1) yields the identical segment list.  (As the
counterexample shows, the code's own inbound decoder parses a different,
single-segment control shape and fails on these bytes.) -/
theorem controlFrame_roundtrip_spec_decoder (segs : List (List Nat))
    (h1 : segs ≠ []) (h2 : segs.length ≤ 2 ^ 32) (h3 : segmentLengthsOk segs) :
    specControlFrameDecode (encodeControlFrame segs) = some segs := by
  have h256 : (256 : Nat) ^ 4 = 2 ^ 32 := by norm_num
  have hcnt : fromBytesBE (toBytesBE 4 (segs.length - 1)) = segs.length - 1 :=
    fromBytesBE_toBytesBE 4 _ (by rw [h256]; omega)
  have hpos : 0 < segs.length := List.length_pos.mpr h1
  simp only [encodeControlFrame, specControlFrameDecode, if_pos rfl,
    readExactly_exact 4 (toBytesBE 4 (segs.length - 1)) _ (length_toBytesBE 4 _),
    hcnt, Nat.sub_add_cancel hpos, readSegments_encoded segs [0] h3]
  rfl

/-- Witness for the amended C2 at the claim's concrete segment list. -/
theorem controlFrame_roundtrip_spec_decoder_witness :
    c2segments ≠ [] ∧ c2segments.length ≤ 2 ^ 32 ∧ segmentLengthsOk c2segments ∧
    specControlFrameDecode (encodeControlFrame c2segments) = some c2segments :=
  ⟨by decide, by decide, by unfold segmentLengthsOk; decide,
   controlFrame_roundtrip_spec_decoder c2segments (by decide) (by decide)
     (by unfold segmentLengthsOk; decide)⟩
